import Mathlib

/-!
Shallow embedding of the SyncTax on-device music recommendation engine
(`app/src/main/python/music_ml.py`) and proofs about it.

Modelling conventions:
* Python floats are modelled as real numbers (`ℝ`); `math.sqrt` is `Real.sqrt`.
* A Python list of floats is `List ℝ`.
* `random.sample(X, k)` (the only source of nondeterminism, used for k-means
  seeding) is modelled as an explicit function parameter `pick : ℕ → List (List ℝ) → List (List ℝ)`;
  every theorem that touches it quantifies over `pick`.
* `json.loads` failures and "wrong shape" inputs that make the Python code raise
  inside a `try` block are modelled by `Option`: `none` stands for an input on
  which parsing/extraction raises, `some v` for a successfully parsed value.
* The single model snapshot file is modelled as an `Option Snapshot` field of
  the process state (`none` = file absent).
* Dictionaries written by `to_dict`/read by `from_dict` are modelled as records
  with `Option` fields (`none` = key absent or JSON `null`).
-/

namespace SyncTaxML

noncomputable section

/-- Python truthiness of an optional list: `None` and `[]` are falsy. -/
def isTruthy : Option (List ℝ) → Bool
  | none => false
  | some l => !l.isEmpty

/-- Python slice `l[-n:]`: the last `min n (len l)` elements. -/
def takeLast (n : ℕ) (l : List (List ℝ)) : List (List ℝ) :=
  l.drop (l.length - n)

/-- Python `int(x)` on a float: truncation toward zero. -/
def pyInt (x : ℝ) : ℤ :=
  if 0 ≤ x then ⌊x⌋ else ⌈x⌉

/-- `cosine_similarity(a, b)` from `music_ml.py`: returns 0.0 on length
mismatch or empty input or a zero magnitude, otherwise the dot product over the
product of magnitudes, clamped into [0, 1]. -/
def cosine_similarity (a b : List ℝ) : ℝ :=
  if a.length ≠ b.length ∨ a.length = 0 then 0
  else
    let dot := ((a.zip b).map (fun p => p.1 * p.2)).sum
    let magA := Real.sqrt ((a.map (fun x => x * x)).sum)
    let magB := Real.sqrt ((b.map (fun x => x * x)).sum)
    if magA = 0 ∨ magB = 0 then 0
    else max 0 (min 1 (dot / (magA * magB)))

/-- `confidence_score(completion_rate, skip_rate, play_count, alpha, beta, gamma)`
from `music_ml.py`; the Python defaults are alpha = 0.5, beta = 0.3, gamma = 0.2
and every call site uses them. -/
def confidence_score (completion_rate skip_rate : ℝ) (play_count : ℤ)
    (alpha beta gamma : ℝ) : ℝ :=
  alpha * completion_rate + beta * (1 - skip_rate) +
    gamma * min ((play_count : ℝ) / 100) 1

/-- State of `SimpleClustering`. -/
structure Clustering where
  n_clusters : ℕ
  centroids : List (List ℝ)

/-- `SimpleClustering._distance`: Euclidean distance over `zip` (which
truncates to the shorter vector, as in Python). -/
def dist (a b : List ℝ) : ℝ :=
  Real.sqrt (((a.zip b).map (fun p => (p.1 - p.2) ^ 2)).sum)

/-- Python `min(l)` for a nonempty list (0 as an unused default for `[]`). -/
def listMin : List ℝ → ℝ
  | [] => 0
  | x :: xs => xs.foldl min x

/-- Python `l.index(t)`: index of the first occurrence (total here; callers
only use it with `t` a member of `l`). -/
def idxOfFirst (t : ℝ) : List ℝ → ℕ
  | [] => 0
  | x :: xs => if x = t then 0 else idxOfFirst t xs + 1

/-- Python `distances.index(min(distances))`. -/
def indexOfMin (l : List ℝ) : ℕ :=
  idxOfFirst (listMin l) l

/-- Python `zip(*rows)`: list of columns, truncated to the shortest row. -/
def pyTranspose (rows : List (List ℝ)) : List (List ℝ) :=
  match rows with
  | [] => []
  | r :: rs =>
    (List.range (rs.foldl (fun m row => min m row.length) r.length)).map
      (fun j => rows.map (fun row => row.getD j 0))

/-- One iteration of the k-means loop in `SimpleClustering.fit`: assign every
point to its nearest centroid, then replace each centroid that received a
nonempty cluster by the coordinate-wise mean of its cluster, keeping the old
centroid for an empty cluster. -/
def lloydStep (X : List (List ℝ)) (k : ℕ) (cents : List (List ℝ)) : List (List ℝ) :=
  (List.range k).map (fun i =>
    let cl := X.filter (fun p => indexOfMin (cents.map (dist p)) = i)
    if cl.isEmpty then cents.getD i []
    else (pyTranspose cl).map (fun col => col.sum / (cl.length : ℝ)))

/-- The fixed 10 iterations of `SimpleClustering.fit`. -/
def lloydIter (X : List (List ℝ)) (k : ℕ) : ℕ → List (List ℝ) → List (List ℝ)
  | 0, cents => cents
  | n + 1, cents => lloydIter X k n (lloydStep X k cents)

/-- `SimpleClustering.fit`: fewer points than `n_clusters` makes the centroids
a verbatim copy of the input with no iteration; otherwise seed by
`random.sample` (the `pick` parameter) and run 10 iterations. -/
def clusteringFit (pick : ℕ → List (List ℝ) → List (List ℝ))
    (X : List (List ℝ)) (c : Clustering) : Clustering :=
  if X.length < c.n_clusters then { c with centroids := X }
  else { c with centroids := lloydIter X c.n_clusters 10 (pick c.n_clusters X) }

/-- `SimpleClustering.predict_cluster`: 0 with no centroids, else the index of
the first nearest centroid. -/
def predictCluster (c : Clustering) (p : List ℝ) : ℕ :=
  if c.centroids.isEmpty then 0
  else indexOfMin (c.centroids.map (dist p))

/-- The dictionary produced by `SimpleClustering.to_dict` / consumed by
`from_dict` (`none` = key absent). -/
structure CDict where
  n_clusters : Option ℕ
  centroids : Option (List (List ℝ))

/-- `SimpleClustering.to_dict`. -/
def clusteringToDict (c : Clustering) : CDict :=
  ⟨some c.n_clusters, some c.centroids⟩

/-- `SimpleClustering.from_dict`: `data.get("n_clusters", 5)` and
`data.get("centroids", [])`. -/
def clusteringFromDict (d : CDict) (c : Clustering) : Clustering :=
  { c with n_clusters := d.n_clusters.getD 5, centroids := d.centroids.getD [] }

/-- State of `RecommendationScorer` (`None` Python fields are `none`). -/
structure Scorer where
  user_mean : Option (List ℝ)
  user_std : Option (List ℝ)
  user_profile_vector : Option (List ℝ)

/-- The per-dimension loop of `RecommendationScorer.fit`, one call per index of
`range(n_features)`. Python's `h[i]` raises `IndexError` as soon as some
history row is too short; at that moment the partially built `user_mean` /
`user_std` lists (all dimensions before the failing one) are what the object
holds. The returned Bool is `true` iff the loop completed without raising. -/
def fitDims (hist : List (List ℝ)) : List ℕ → List ℝ × List ℝ × Bool
  | [] => ([], [], true)
  | i :: rest =>
    if ∀ h ∈ hist, i < h.length then
      let values := hist.map (fun h => h.getD i 0)
      let mean := values.sum / (values.length : ℝ)
      let variance := ((values.map (fun v => (v - mean) ^ 2)).sum) / (values.length : ℝ)
      let std := if variance > 0 then Real.sqrt variance else 1
      let r := fitDims hist rest
      (mean :: r.1, std :: r.2.1, r.2.2)
    else ([], [], false)

/-- `RecommendationScorer.fit`: no-op on empty history; otherwise overwrite
`user_mean`/`user_std` dimension by dimension and finally set
`user_profile_vector := user_mean`. The Bool is `false` when the Python loop
raised (ragged history): in that case `user_mean`/`user_std` hold the partial
prefixes and `user_profile_vector` keeps its previous value. -/
def scorerFit (hist : List (List ℝ)) (s : Scorer) : Scorer × Bool :=
  if hist.isEmpty then (s, true)
  else
    let n := (hist.headD []).length
    let r := fitDims hist (List.range n)
    if r.2.2 then
      ({ user_mean := some r.1, user_std := some r.2.1,
         user_profile_vector := some r.1 }, true)
    else ({ s with user_mean := some r.1, user_std := some r.2.1 }, false)

/-- The fixed 14-entry weight table of `RecommendationScorer.score`. -/
def weightsTable : List ℝ :=
  [0.10, 0.18, 0.12, 0.10, 0.08, 0.08, 0.08, 0.04, 0.04, 0.06, 0.05, 0.03, 0.02, 0.02]

/-- Weight padding of `RecommendationScorer.score`: truncate when the
similarity list is shorter than the table, extend with the equally split
residual weight when it is longer. -/
def padWeights (n : ℕ) : List ℝ :=
  if n < weightsTable.length then weightsTable.take n
  else if weightsTable.length < n then
    weightsTable ++
      List.replicate (n - weightsTable.length)
        ((1 - weightsTable.sum) / ((n - weightsTable.length : ℕ) : ℝ))
  else weightsTable

/-- Per-dimension z-score similarities of `RecommendationScorer.score`
(`zip` truncates to the shortest of the three lists, as in Python). -/
def zSimilarities (x mean std : List ℝ) : List ℝ :=
  (x.zip (mean.zip std)).map (fun p =>
    let z := if p.2.2 > 0 then |(p.1 - p.2.1) / p.2.2| else 0
    1 / (1 + z))

/-- The weighted similarity sum of `RecommendationScorer.score` (step 2). -/
def weightedSimSum (sims : List ℝ) : ℝ :=
  ((sims.zip (padWeights sims.length)).map (fun p => p.1 * p.2)).sum

/-- `RecommendationScorer.score`: 0.5 when untrained (falsy mean or std), else
weighted z-similarity, cosine blend, skip-rate penalty, clamped to [0, 1]. -/
def scorerScore (s : Scorer) (x : List ℝ) : ℝ :=
  if isTruthy s.user_mean = false ∨ isTruthy s.user_std = false then 0.5
  else
    let sims := zSimilarities x (s.user_mean.getD []) (s.user_std.getD [])
    let w1 := weightedSimSum sims
    let w2 :=
      if isTruthy s.user_profile_vector = true ∧
          x.length = (s.user_profile_vector.getD []).length then
        w1 * 0.7 + cosine_similarity x (s.user_profile_vector.getD []) * 0.3
      else w1
    let w3 := if 2 < x.length then w2 * (1 - x.getD 2 0 * 0.5) else w2
    max 0 (min 1 w3)

/-- `RecommendationScorer.score_with_context`: base score, then a diversity
penalty of at most 30% from the average cosine similarity to the last 5 of the
supplied recent songs. -/
def scoreWithContext (s : Scorer) (x : List ℝ) (recent : List (List ℝ)) : ℝ :=
  let base := scorerScore s x
  if recent.isEmpty then base
  else
    let pen := ((takeLast 5 recent).map (fun r => cosine_similarity x r)).sum
    let penNorm := pen / ((min recent.length 5 : ℕ) : ℝ)
    base * (1 - 0.3 * penNorm)

/-- The dictionary of `RecommendationScorer.to_dict` / `from_dict`. -/
structure SDict where
  user_mean : Option (List ℝ)
  user_std : Option (List ℝ)
  user_profile_vector : Option (List ℝ)

/-- `RecommendationScorer.to_dict`. -/
def scorerToDict (s : Scorer) : SDict :=
  ⟨s.user_mean, s.user_std, s.user_profile_vector⟩

/-- `RecommendationScorer.from_dict` (overwrites all three fields). -/
def scorerFromDict (d : SDict) (_s : Scorer) : Scorer :=
  ⟨d.user_mean, d.user_std, d.user_profile_vector⟩

/-- State of `MusicRecommendationML`. -/
structure Engine where
  scorer : Scorer
  clustering : Clustering
  is_trained : Bool
  recent_recommendations : List (List ℝ)

/-- The JSON snapshot file `ml_model.json` (`none` fields = absent keys). -/
structure Snapshot where
  is_trained : Option Bool
  scorer : Option SDict
  clustering : Option CDict

/-- The dictionary written by `MusicRecommendationML._save_model`. -/
def saveModel (e : Engine) : Snapshot :=
  ⟨some e.is_trained, some (scorerToDict e.scorer), some (clusteringToDict e.clustering)⟩

/-- `MusicRecommendationML._load_model`: a missing file leaves the engine
untouched; otherwise restore with Python `dict.get` defaults. -/
def loadModel (fs : Option Snapshot) (e : Engine) : Engine :=
  match fs with
  | none => e
  | some d =>
    { e with
      is_trained := d.is_trained.getD false,
      scorer := scorerFromDict (d.scorer.getD ⟨none, none, none⟩) e.scorer,
      clustering := clusteringFromDict (d.clustering.getD ⟨none, none⟩) e.clustering }

/-- `MusicRecommendationML.__init__`: fresh fields then `_load_model()`. -/
def initEngine (fs : Option Snapshot) : Engine :=
  loadModel fs
    { scorer := ⟨none, none, none⟩,
      clustering := ⟨5, []⟩,
      is_trained := false,
      recent_recommendations := [] }

/-- The recent-recommendation update in `recommend`: append, then `pop(0)` once
the length exceeds 50. -/
def pushCap (r : List (List ℝ)) (x : List ℝ) : List (List ℝ) :=
  let r2 := r ++ [x]
  if 50 < r2.length then r2.tail else r2

/-- Result dictionary of `MusicRecommendationML.recommend`. The Python `except`
branch omits the `"diversity_score"` key, hence the `Option` field
(`none` = key absent from the returned dictionary). -/
structure RecResult where
  score : ℝ
  confidence : ℝ
  cluster : ℤ
  diversity_score : Option ℝ
  message : String

/-- `MusicRecommendationML.recommend`. Input `none` models a
`song_features_json` on which `json.loads` (or feature access) raises inside
the `try` block; the exception text appended to the failure message is
abstracted away. -/
def recommend (e : Engine) (input : Option (List ℝ)) : Engine × RecResult :=
  if e.is_trained then
    match input with
    | none => (e, ⟨50, 0.3, -1, none, "Recommendation failed"⟩)
    | some xs =>
      let base := scoreWithContext e.scorer xs (takeLast 10 e.recent_recommendations) * 100
      let cid := predictCluster e.clustering xs
      let play_freq := if 0 < xs.length then xs.getD 0 0 else 0.5
      let completion := if 1 < xs.length then xs.getD 1 0 else 0.5
      let skip_rate := if 2 < xs.length then xs.getD 2 0 else 0
      let conf :=
        min 0.95 (max 0.3
          (confidence_score completion skip_rate (pyInt (play_freq * 100)) 0.5 0.3 0.2))
      ({ e with recent_recommendations := pushCap e.recent_recommendations xs },
       ⟨base, conf, (cid : ℤ), some (1 - skip_rate * 0.5),
        "Recommendation generated successfully"⟩)
  else
    (e, ⟨50, 0.3, -1, some 1, "Model not trained yet"⟩)

/-- One entry of the parsed training history; `features = none` models an item
whose `"features"` key access raises. -/
structure HEntry where
  features : Option (List ℝ)

/-- Result dictionary of `MusicRecommendationML.train`
(`samples_trained = none` = key absent, i.e. the failure dictionaries). -/
structure TrainResult where
  success : Bool
  samples_trained : Option ℕ
  message : String

/-- State threaded through `train`: the engine plus the snapshot file. -/
structure MLSystem where
  engine : Engine
  fs : Option Snapshot

/-- `MusicRecommendationML.train` at process level. Input `none` models a
history JSON on which `json.loads` raises. The scorer is fitted first; if its
per-dimension loop raises (ragged rows), the partially overwritten scorer stays
in the engine, the clustering is never reached and the call reports failure.
On success the clustering is fitted, `is_trained` is set and `_save_model`
rewrites the snapshot file. Exception detail strings are abstracted away. -/
def train (pick : ℕ → List (List ℝ) → List (List ℝ))
    (sys : MLSystem) (input : Option (List HEntry)) : MLSystem × TrainResult :=
  match input with
  | none => (sys, ⟨false, none, "Training failed"⟩)
  | some l =>
    if l.isEmpty = true ∨ l.length < 5 then
      (sys, ⟨false, none, "Insufficient training data (need at least 5 samples)"⟩)
    else if l.all (fun it => it.features.isSome) = false then
      (sys, ⟨false, none, "Training failed"⟩)
    else
      let feats := l.map (fun it => it.features.getD [])
      let fr := scorerFit feats sys.engine.scorer
      if fr.2 = false then
        ({ sys with engine := { sys.engine with scorer := fr.1 } },
         ⟨false, none, "Training failed"⟩)
      else
        let c2 := clusteringFit pick feats sys.engine.clustering
        let e2 : Engine :=
          { scorer := fr.1, clustering := c2, is_trained := true,
            recent_recommendations := sys.engine.recent_recommendations }
        ({ engine := e2, fs := some (saveModel e2) },
         ⟨true, some l.length, "Training completed successfully"⟩)

/-- Result of `get_status` / `get_model_status`. -/
structure StatusResult where
  is_trained : Bool
  has_scorer : Bool
  n_clusters : ℕ

/-- `MusicRecommendationML.get_status` (`has_scorer` is `user_mean is not None`). -/
def getStatus (e : Engine) : StatusResult :=
  ⟨e.is_trained, e.scorer.user_mean.isSome, e.clustering.n_clusters⟩

/-- Result of `reset_model`. -/
structure ResetResult where
  success : Bool
  message : String

/-- Process-level global state of the module: `_ml_engine` (which is `None`
until the first engine-creating call of the process) plus the snapshot file. -/
structure ProcState where
  engine? : Option Engine
  fs : Option Snapshot

/-- Module-level `_get_engine`: return the global engine, lazily constructing
it (which loads the snapshot file) when it is still `None`. -/
def getEngine (p : ProcState) : ProcState × Engine :=
  match p.engine? with
  | some e => (p, e)
  | none =>
    let e := initEngine p.fs
    ({ p with engine? := some e }, e)

/-- Module-level `get_model_status`. -/
def getModelStatus (p : ProcState) : ProcState × StatusResult :=
  let q := getEngine p
  (q.1, getStatus q.2)

/-- Module-level `get_recommendation`: fetch (or lazily create) the global
engine, run `recommend` on it, and keep the mutated engine. -/
def getRecommendation (p : ProcState) (input : Option (List ℝ)) :
    ProcState × RecResult :=
  let q := getEngine p
  let r := recommend q.2 input
  ({ q.1 with engine? := some r.1 }, r.2)

/-- Module-level `reset_model`: only when the global engine already exists
(`if _ml_engine:` — an engine object is always truthy) is the snapshot file
deleted; afterwards the global engine is rebuilt, and its constructor load
reads whatever file is present at that point. In particular, when
`reset_model` is the first call of the process the file survives and the new
engine reloads it. -/
def resetModel (p : ProcState) : ProcState × ResetResult :=
  let fs2 := if p.engine?.isSome then none else p.fs
  ({ engine? := some (initEngine fs2), fs := fs2 }, ⟨true, "Model reset"⟩)

/-- Fold of successive `recommend` calls, keeping only the engine state. -/
def runRecommends (e : Engine) (l : List (List ℝ)) : Engine :=
  l.foldl (fun acc x => (recommend acc (some x)).1) e

/-- Concrete stand-in for `random.sample` used to close scenarios: take the
first k elements. Theorems about training quantify over the pick function. -/
def pickTake (k : ℕ) (X : List (List ℝ)) : List (List ℝ) := X.take k

/-- The candidate/training vector `[0.5] * 14` of end-to-end scenario B. -/
def v14 : List ℝ := List.replicate 14 (0.5 : ℝ)

/-- Fresh process state: no snapshot file, freshly constructed engine. -/
def freshSys : MLSystem := ⟨initEngine none, none⟩

/-- Training batch of 5 identical entries, each `[0.5] * 14`. -/
def c1Hist : List HEntry := List.replicate 5 ⟨some v14⟩

/-- A concrete already-trained system. -/
def sysTrained : MLSystem :=
  ⟨⟨⟨some [1, 1], some [1, 1], some [1, 1]⟩, ⟨5, [[1, 1]]⟩, true, []⟩, none⟩

/-- A 5-entry ragged batch: the first row has 2 features, the rest 0. -/
def raggedHist : List HEntry :=
  [⟨some [1, 2]⟩, ⟨some []⟩, ⟨some []⟩, ⟨some []⟩, ⟨some []⟩]

/-- A concrete trained engine whose recent window starts empty. -/
def windowEngine : Engine := ⟨⟨some [1], some [1], some [1]⟩, ⟨5, [[1]]⟩, true, []⟩

/-- 51 distinct single-dimension feature vectors. -/
def windowInputs : List (List ℝ) := (List.range 51).map (fun i => [(i : ℝ)])

end

/-! Theorems about the embedded engine, one per claim (plus shared lemmas). -/

/-- C3: for every Scorer state and every candidate vector `x` (any length,
matching or not), `score` returns a value in [0, 1]; whenever the untrained
guard fires (falsy mean or std) the returned value is the neutral prior 0.5. -/
theorem c3_score_bounded (s : Scorer) (x : List ℝ) :
    0 ≤ scorerScore s x ∧ scorerScore s x ≤ 1 ∧
      ((isTruthy s.user_mean = false ∨ isTruthy s.user_std = false) →
        scorerScore s x = 0.5) := by
  refine ⟨?_, ?_, ?_⟩
  · unfold scorerScore
    split
    · norm_num
    · exact le_max_left _ _
  · unfold scorerScore
    split
    · norm_num
    · exact max_le zero_le_one (min_le_left _ _)
  · intro h
    unfold scorerScore
    rw [if_pos h]

/-- C3 witness: the untrained scorer returns 0.5 on a concrete input. -/
theorem c3_score_bounded_check : scorerScore ⟨none, none, none⟩ [3] = 0.5 :=
  (c3_score_bounded ⟨none, none, none⟩ [3]).2.2 (Or.inl rfl)

/-- C6: a parsed training batch with fewer than 5 entries (empty included)
makes `train` return, not raise, the insufficient-data failure, leaving the
whole system state unchanged. -/
theorem c6_insufficient_data (pick : ℕ → List (List ℝ) → List (List ℝ))
    (sys : MLSystem) (l : List HEntry) (h : l.length < 5) :
    train pick sys (some l) =
      (sys, ⟨false, none, "Insufficient training data (need at least 5 samples)"⟩) := by
  unfold train
  dsimp only
  rw [if_pos (Or.inr h)]

/-- C6 witness: the empty batch and a 4-entry batch. -/
theorem c6_insufficient_data_check :
    train pickTake freshSys (some []) =
      (freshSys, ⟨false, none, "Insufficient training data (need at least 5 samples)"⟩) ∧
    train pickTake freshSys (some (List.replicate 4 ⟨some [1]⟩)) =
      (freshSys, ⟨false, none, "Insufficient training data (need at least 5 samples)"⟩) :=
  ⟨c6_insufficient_data pickTake freshSys [] (by decide),
   c6_insufficient_data pickTake freshSys (List.replicate 4 ⟨some [1]⟩) (by decide)⟩

/-- C7: serialization round-trips. `from_dict (to_dict s)` restores the scorer
exactly, `from_dict (to_dict c)` restores the clustering exactly, and
constructing an engine from the snapshot written by `_save_model` restores
`is_trained`, the scorer (mean/std/profile vectors) and the clustering
(centroids) exactly — in particular within floating-point tolerance. -/
theorem c7_roundtrip (s s0 : Scorer) (c c0 : Clustering) (e : Engine) :
    scorerFromDict (scorerToDict s) s0 = s ∧
    clusteringFromDict (clusteringToDict c) c0 = c ∧
    (initEngine (some (saveModel e))).is_trained = e.is_trained ∧
    (initEngine (some (saveModel e))).scorer = e.scorer ∧
    (initEngine (some (saveModel e))).clustering = e.clustering :=
  ⟨rfl, rfl, rfl, rfl, rfl⟩

/-- C8 counterexample: when `reset_model` is the first call of the process
(the global engine is still `None`) and a trained snapshot file exists, the
`if _ml_engine:` guard skips the deletion: the file survives, the freshly
constructed engine reloads the stale trained state, `get_model_status`
reports `is_trained = true`, and `get_recommendation` takes the trained path
instead of returning the untrained default. -/
theorem c8_counterexample :
    (resetModel ⟨none, some (saveModel
        (Engine.mk ⟨some [1], some [1], some [1]⟩ ⟨5, [[1]]⟩ true []))⟩).1.fs ≠
      none ∧
    (getModelStatus (resetModel ⟨none, some (saveModel
        (Engine.mk ⟨some [1], some [1], some [1]⟩ ⟨5, [[1]]⟩ true []))⟩).1).2.is_trained =
      true ∧
    (getRecommendation (resetModel ⟨none, some (saveModel
        (Engine.mk ⟨some [1], some [1], some [1]⟩ ⟨5, [[1]]⟩ true []))⟩).1
        (some [1])).2.message = "Recommendation generated successfully" := by
  refine ⟨?_, rfl, rfl⟩
  rw [show (resetModel ⟨none, some (saveModel
      (Engine.mk ⟨some [1], some [1], some [1]⟩ ⟨5, [[1]]⟩ true []))⟩).1.fs =
    some (saveModel (Engine.mk ⟨some [1], some [1], some [1]⟩ ⟨5, [[1]]⟩ true []))
    from rfl]
  exact Option.some_ne_none _

/-- C8 amended: in a process whose global engine has already been initialized
(any earlier engine call), `reset_model` deletes the snapshot file and
rebuilds the engine fresh: the reported status is untrained, a subsequent
`get_recommendation` (with any input) returns the untrained default
`{score 50, confidence 0.3, cluster -1, diversity_score 1.0}` rather than any
stale trained value, and the snapshot file is gone. When `reset_model` is the
first call of the process the deletion is skipped and stale state reloads
(see the counterexample). -/
theorem c8_reset (p : ProcState) (e : Engine) (input : Option (List ℝ))
    (h : p.engine? = some e) :
    (resetModel p).2.success = true ∧
    (getModelStatus (resetModel p).1).2.is_trained = false ∧
    (getRecommendation (resetModel p).1 input).2 =
      ⟨50, 0.3, -1, some 1, "Model not trained yet"⟩ ∧
    (resetModel p).1.fs = none := by
  have hreset : (resetModel p).1 = ⟨some (initEngine none), none⟩ := by
    unfold resetModel
    rw [h]
    rfl
  rw [hreset]
  exact ⟨rfl, rfl, rfl, rfl⟩

/-- C8 witness: a concrete initialized process state. -/
theorem c8_reset_check :
    (resetModel ⟨some (initEngine none), none⟩).2.success = true ∧
    (getModelStatus (resetModel ⟨some (initEngine none), none⟩).1).2.is_trained =
      false ∧
    (getRecommendation (resetModel ⟨some (initEngine none), none⟩).1
        (some [2])).2 = ⟨50, 0.3, -1, some 1, "Model not trained yet"⟩ ∧
    (resetModel ⟨some (initEngine none), none⟩).1.fs = none :=
  c8_reset ⟨some (initEngine none), none⟩ (initEngine none) (some [2]) rfl

/-- Helper: a capped push keeps the suffix of length at most 50. -/
lemma pushCap_foldl (l : List (List ℝ)) : ∀ r : List (List ℝ), r.length ≤ 50 →
    List.foldl pushCap r l = (r ++ l).drop (r.length + l.length - 50) := by
  induction l with
  | nil =>
    intro r hr
    simp [Nat.sub_eq_zero_of_le hr]
  | cons x t ih =>
    intro r hr
    rw [List.foldl_cons]
    by_cases h : r.length + 1 ≤ 50
    · have hx : pushCap r x = r ++ [x] := by
        unfold pushCap
        rw [if_neg (by simp; omega)]
      rw [hx, ih (r ++ [x]) (by simp; omega)]
      rw [List.append_assoc, List.singleton_append]
      congr 1
      simp
      omega
    · have hr50 : r.length = 50 := by omega
      obtain ⟨a, r2, rfl⟩ : ∃ a r2, r = a :: r2 := by
        cases r with
        | nil => simp at hr50
        | cons a r2 => exact ⟨a, r2, rfl⟩
      have hl49 : r2.length = 49 := by simpa using hr50
      have hx : pushCap (a :: r2) x = r2 ++ [x] := by
        unfold pushCap
        rw [if_pos (by simp; omega)]
        simp
      rw [hx, ih (r2 ++ [x]) (by simp; omega)]
      rw [List.append_assoc, List.singleton_append, List.cons_append]
      rw [show (r2 ++ [x]).length + t.length - 50 = t.length by simp [hl49]]
      rw [show (a :: r2).length + (x :: t).length - 50 = t.length + 1 by simp [hl49]]
      rw [List.drop_succ_cons]

/-- Helper: a trained `recommend` call only pushes onto the recent window. -/
lemma recommend_trained_fst (e : Engine) (x : List ℝ) (h : e.is_trained = true) :
    (recommend e (some x)).1 =
      { e with recent_recommendations := pushCap e.recent_recommendations x } := by
  unfold recommend
  rw [if_pos h]

/-- Helper: folding trained `recommend` calls folds `pushCap` on the window. -/
lemma runRecommends_eq (l : List (List ℝ)) : ∀ e : Engine, e.is_trained = true →
    runRecommends e l =
      { e with recent_recommendations := List.foldl pushCap e.recent_recommendations l } := by
  induction l with
  | nil => intro e _; rfl
  | cons x t ih =>
    intro e h
    unfold runRecommends at ih ⊢
    rw [List.foldl_cons, recommend_trained_fst e x h,
      ih { e with recent_recommendations := pushCap e.recent_recommendations x } h,
      List.foldl_cons]

/-- C5: the recent-recommendation window is a FIFO buffer capped at 50. After
51 sequential trained `recommend` calls starting from an empty window, the
window holds exactly the last 50 feature vectors: the first call's vector has
been evicted and the length is 50. -/
theorem c5_recent_window (e : Engine) (inputs : List (List ℝ))
    (h1 : e.is_trained = true) (h2 : e.recent_recommendations = [])
    (h3 : inputs.length = 51) :
    (runRecommends e inputs).recent_recommendations = inputs.drop 1 ∧
    (runRecommends e inputs).recent_recommendations.length = 50 := by
  rw [runRecommends_eq inputs e h1, h2]
  have h4 := pushCap_foldl inputs [] (by simp)
  simp only [List.nil_append, List.length_nil, Nat.zero_add] at h4
  rw [h4, h3]
  refine ⟨rfl, ?_⟩
  simp [h3]

/-- C5 witness: a concrete trained engine and 51 concrete distinct inputs. -/
theorem c5_recent_window_check :
    (runRecommends windowEngine windowInputs).recent_recommendations =
      windowInputs.drop 1 ∧
    (runRecommends windowEngine windowInputs).recent_recommendations.length = 50 :=
  c5_recent_window windowEngine windowInputs rfl rfl (by decide)

/-- C9: with fewer points than `n_clusters`, `fit` copies the points verbatim
into the centroids with no Lloyd iteration; `predict_cluster` on one of those
(identical) points returns 0; and `predict_cluster` returns 0 whenever no
centroids exist yet. -/
theorem c9_degenerate_fit (pick : ℕ → List (List ℝ) → List (List ℝ))
    (c : Clustering) (p : List ℝ) (h : 3 < c.n_clusters) :
    (clusteringFit pick [p, p, p] c).centroids = [p, p, p] ∧
    predictCluster (clusteringFit pick [p, p, p] c) p = 0 ∧
    (∀ (c2 : Clustering) (q : List ℝ), c2.centroids = [] →
      predictCluster c2 q = 0) := by
  have hfit : clusteringFit pick [p, p, p] c = { c with centroids := [p, p, p] } := by
    unfold clusteringFit
    rw [if_pos (by simpa using h)]
  refine ⟨by rw [hfit], ?_, ?_⟩
  · rw [hfit]
    unfold predictCluster
    rw [if_neg (by simp)]
    show indexOfMin (List.map (dist p) [p, p, p]) = 0
    rw [show List.map (dist p) [p, p, p] = [dist p p, dist p p, dist p p] from rfl]
    unfold indexOfMin
    rw [show listMin [dist p p, dist p p, dist p p] = dist p p by
      show List.foldl min (dist p p) [dist p p, dist p p] = dist p p
      rw [List.foldl_cons, List.foldl_cons, List.foldl_nil, min_self, min_self]]
    unfold idxOfFirst
    rw [if_pos rfl]
  · intro c2 q hc
    unfold predictCluster
    rw [if_pos (by simp [hc])]

/-- C9 witness: k = 5, three identical one-dimensional points. -/
theorem c9_degenerate_fit_check :
    (clusteringFit pickTake [[1], [1], [1]] ⟨5, []⟩).centroids = [[1], [1], [1]] ∧
    predictCluster (clusteringFit pickTake [[1], [1], [1]] ⟨5, []⟩) [1] = 0 ∧
    (∀ (c2 : Clustering) (q : List ℝ), c2.centroids = [] →
      predictCluster c2 q = 0) :=
  c9_degenerate_fit pickTake ⟨5, []⟩ [1] (by decide)

/-- Helper: the weight table has exactly 14 entries. -/
lemma weightsTable_length : weightsTable.length = 14 := rfl

/-- Helper: the weight table sums to exactly 1 in exact arithmetic. -/
lemma weightsTable_sum : weightsTable.sum = 1 := by
  norm_num [weightsTable]

/-- Helper: for a similarity list at least as long as the table, the padding
appends only zero weights. -/
lemma padWeights_extra (n : ℕ) (h : 14 ≤ n) :
    padWeights n = weightsTable ++ List.replicate (n - 14) 0 := by
  unfold padWeights
  rw [weightsTable_length]
  rcases eq_or_lt_of_le h with he | hl
  · rw [if_neg (by omega), if_neg (by omega), ← he]
    simp
  · rw [if_neg (by omega), if_pos hl]
    congr 1
    rw [weightsTable_sum]
    simp

/-- Helper: zipping against zero weights contributes nothing to the sum. -/
lemma zip_zero_sum (l : List ℝ) : ∀ m : ℕ,
    ((l.zip (List.replicate m (0 : ℝ))).map (fun p => p.1 * p.2)).sum = 0 := by
  induction l with
  | nil => intro m; simp
  | cons x t ih =>
    intro m
    cases m with
    | zero => simp
    | succ k =>
      rw [List.replicate_succ, List.zip_cons_cons, List.map_cons, List.sum_cons, ih k]
      simp

/-- C10: the 14-entry weight table of `score` sums exactly to 1 in exact
arithmetic, so each extra dimension of a longer similarity list receives
weight (1-1)/extra = 0 and the weighted similarity sum is decided entirely by
the first 14 dimensions. -/
theorem c10_weight_padding (sims : List ℝ) (h : 14 < sims.length) :
    weightsTable.sum = 1 ∧
    weightedSimSum sims = weightedSimSum (sims.take 14) := by
  refine ⟨weightsTable_sum, ?_⟩
  unfold weightedSimSum
  have hlen14 : (sims.take 14).length = 14 := by
    rw [List.length_take]
    omega
  rw [hlen14, padWeights_extra sims.length (by omega),
    padWeights_extra 14 (by omega)]
  rw [show (14 : ℕ) - 14 = 0 from rfl, List.replicate_zero, List.append_nil]
  conv_lhs => rw [← List.take_append_drop 14 sims]
  rw [List.zip_append (by rw [hlen14, weightsTable_length]), List.map_append,
    List.sum_append, zip_zero_sum]
  simp

/-- C10 witness: a concrete 15-dimensional similarity list. -/
theorem c10_weight_padding_check :
    weightsTable.sum = 1 ∧
    weightedSimSum (List.replicate 15 1) =
      weightedSimSum ((List.replicate 15 1).take 14) :=
  c10_weight_padding (List.replicate 15 1) (by decide)

/-- Helper: reading inside a replicate returns the replicated value. -/
lemma getD_replicate (v d : ℝ) : ∀ (m i : ℕ), i < m →
    (List.replicate m v).getD i d = v := by
  intro m
  induction m with
  | zero => intro i hi; omega
  | succ k ih =>
    intro i hi
    cases i with
    | zero => rfl
    | succ j =>
      show (List.replicate k v).getD j d = v
      exact ih j (by omega)

/-- Helper: fitting identical history rows gives mean = the value and, the
variance being zero, the fallback std 1 in every dimension. -/
lemma fitDims_const (k m : ℕ) (hk : k ≠ 0) (v : ℝ) :
    ∀ idxs : List ℕ, (∀ i ∈ idxs, i < m) →
    fitDims (List.replicate k (List.replicate m v)) idxs =
      (List.replicate idxs.length v, List.replicate idxs.length 1, true) := by
  intro idxs
  induction idxs with
  | nil => intro _; rfl
  | cons i rest ih =>
    intro hall
    have hmem : i < m := hall i (List.mem_cons_self i rest)
    unfold fitDims
    rw [if_pos (fun row hrow => by
      rw [List.eq_of_mem_replicate hrow, List.length_replicate]; exact hmem)]
    dsimp only
    rw [ih (fun j hj => hall j (List.mem_cons_of_mem i hj))]
    have hvals : (List.replicate k (List.replicate m v)).map (fun h => h.getD i 0) =
        List.replicate k v := by
      rw [List.map_replicate, getD_replicate v 0 m i hmem]
    rw [hvals, List.sum_replicate, List.length_replicate]
    have hkR : ((k : ℕ) : ℝ) ≠ 0 := Nat.cast_ne_zero.mpr hk
    have hmean : (k • v) / ((k : ℕ) : ℝ) = v := by
      rw [nsmul_eq_mul, mul_div_cancel_left₀ v hkR]
    rw [hmean]
    rw [show (List.replicate k v).map (fun w => (w - v) ^ 2) =
        List.replicate k 0 by rw [List.map_replicate]; simp]
    rw [List.sum_replicate, smul_zero, zero_div, if_neg (lt_irrefl 0)]
    rw [List.length_cons, List.replicate_succ, List.replicate_succ]

/-- Helper: fitting 5 copies of `[0.5] * 14` yields mean and profile
`[0.5] * 14` and the all-ones fallback std. -/
lemma scorerFit_c1 (s : Scorer) :
    scorerFit (List.replicate 5 v14) s =
      (⟨some (List.replicate 14 (0.5 : ℝ)), some (List.replicate 14 1),
        some (List.replicate 14 (0.5 : ℝ))⟩, true) := by
  unfold scorerFit
  rw [if_neg (by decide)]
  dsimp only
  rw [show ((List.replicate 5 v14).headD []).length = 14 from rfl]
  have h14 : fitDims (List.replicate 5 v14) (List.range 14) =
      (List.replicate 14 (0.5 : ℝ), List.replicate 14 1, true) := by
    have h := fitDims_const 5 14 (by norm_num) (0.5 : ℝ) (List.range 14)
      (fun i hi => List.mem_range.mp hi)
    rw [List.length_range] at h
    exact h
  rw [h14]
  rfl

/-- Helper: training on the scenario-B batch produces the expected scorer,
marks the engine trained and leaves the recent window empty. -/
lemma c1_train_engine (pick : ℕ → List (List ℝ) → List (List ℝ)) :
    (train pick freshSys (some c1Hist)).1.engine.scorer =
      ⟨some (List.replicate 14 (0.5 : ℝ)), some (List.replicate 14 1),
        some (List.replicate 14 (0.5 : ℝ))⟩ ∧
    (train pick freshSys (some c1Hist)).1.engine.is_trained = true ∧
    (train pick freshSys (some c1Hist)).1.engine.recent_recommendations = [] := by
  have hfeats : c1Hist.map (fun it => it.features.getD []) = List.replicate 5 v14 := by
    unfold c1Hist
    rw [List.map_replicate]
    rfl
  unfold train
  dsimp only
  rw [if_neg (by decide), if_neg (by decide)]
  simp only [hfeats, scorerFit_c1]
  rw [if_neg (by decide)]
  exact ⟨rfl, rfl, rfl⟩

/-- Helper: z-similarities of identical vectors under all-ones std are 1. -/
lemma zSim_const (a : ℝ) : ∀ n : ℕ,
    zSimilarities (List.replicate n a) (List.replicate n a) (List.replicate n 1) =
      List.replicate n 1 := by
  intro n
  induction n with
  | zero => rfl
  | succ k ih =>
    unfold zSimilarities at ih ⊢
    rw [List.replicate_succ,
      show List.replicate (k + 1) (1 : ℝ) = 1 :: List.replicate k 1 from rfl,
      List.zip_cons_cons, List.zip_cons_cons, List.map_cons, ih]
    congr 1
    dsimp only
    rw [if_pos one_pos]
    rw [show (a - a) / (1 : ℝ) = 0 by simp]
    norm_num

/-- Helper: zipping two replicates of the same length pairs them up. -/
lemma zip_replicate_self (x y : ℝ) : ∀ n : ℕ,
    (List.replicate n x).zip (List.replicate n y) = List.replicate n (x, y) := by
  intro n
  induction n with
  | zero => rfl
  | succ k ih =>
    rw [List.replicate_succ, List.replicate_succ, List.zip_cons_cons, ih,
      ← List.replicate_succ]

/-- Helper: the cosine similarity of `[0.5] * 14` with itself is exactly 1. -/
lemma cos_v14 :
    cosine_similarity (List.replicate 14 (0.5 : ℝ)) (List.replicate 14 (0.5 : ℝ)) = 1 := by
  unfold cosine_similarity
  rw [if_neg (by simp)]
  dsimp only
  have hsq : ((List.replicate 14 (0.5 : ℝ)).map (fun x => x * x)).sum = 7 / 2 := by
    rw [List.map_replicate, List.sum_replicate, nsmul_eq_mul]
    norm_num
  have hdot : (((List.replicate 14 (0.5 : ℝ)).zip (List.replicate 14 (0.5 : ℝ))).map
      (fun p => p.1 * p.2)).sum = 7 / 2 := by
    rw [zip_replicate_self, List.map_replicate, List.sum_replicate, nsmul_eq_mul]
    norm_num
  rw [hsq, hdot]
  have hpos : Real.sqrt (7 / 2) ≠ 0 := ne_of_gt (Real.sqrt_pos.mpr (by norm_num))
  rw [if_neg (by simp [hpos])]
  rw [Real.mul_self_sqrt (by norm_num : (0 : ℝ) ≤ 7 / 2)]
  rw [div_self (by norm_num : (7 / 2 : ℝ) ≠ 0)]
  rw [min_self, max_eq_right zero_le_one]

/-- Helper: all-ones similarities weighted by the table sum to the table sum. -/
lemma ones_weighted (ws : List ℝ) :
    (((List.replicate ws.length (1 : ℝ)).zip ws).map (fun p => p.1 * p.2)).sum =
      ws.sum := by
  induction ws with
  | nil => rfl
  | cons w t ih =>
    rw [List.length_cons, List.replicate_succ, List.zip_cons_cons, List.map_cons,
      List.sum_cons, ih, List.sum_cons]
    dsimp only
    rw [one_mul]

/-- Helper: the weighted similarity sum of 14 perfect similarities is 1. -/
lemma weightedSimSum_ones14 : weightedSimSum (List.replicate 14 (1 : ℝ)) = 1 := by
  unfold weightedSimSum
  rw [show (List.replicate 14 (1 : ℝ)).length = 14 from rfl]
  rw [padWeights_extra 14 le_rfl]
  rw [show (14 : ℕ) - 14 = 0 from rfl, List.replicate_zero, List.append_nil]
  rw [show List.replicate 14 (1 : ℝ) = List.replicate weightsTable.length 1 by
    rw [weightsTable_length]]
  rw [ones_weighted, weightsTable_sum]

/-- Helper: evaluation of the trained `recommend` call of scenario B: score
exactly 75 on the 0-100 scale and confidence exactly 0.5. -/
lemma c1_recommend_eval (e : Engine)
    (hs : e.scorer = ⟨some (List.replicate 14 (0.5 : ℝ)), some (List.replicate 14 1),
      some (List.replicate 14 (0.5 : ℝ))⟩)
    (ht : e.is_trained = true) (hr : e.recent_recommendations = []) :
    (recommend e (some v14)).2.score = 75 ∧
    (recommend e (some v14)).2.confidence = 0.5 := by
  have hbase : scorerScore e.scorer v14 = 3 / 4 := by
    rw [hs]
    unfold scorerScore
    rw [if_neg (by decide)]
    dsimp only
    simp only [Option.getD_some]
    rw [show v14 = List.replicate 14 (0.5 : ℝ) from rfl]
    rw [zSim_const (0.5 : ℝ) 14, weightedSimSum_ones14]
    rw [if_pos (show isTruthy (some (List.replicate 14 (0.5 : ℝ))) = true ∧
      (List.replicate 14 (0.5 : ℝ)).length =
        (List.replicate 14 (0.5 : ℝ)).length by decide)]
    rw [cos_v14]
    rw [if_pos (show 2 < (List.replicate 14 (0.5 : ℝ)).length by decide)]
    rw [show (List.replicate 14 (0.5 : ℝ)).getD 2 0 = 0.5 from rfl]
    rw [show (1 : ℝ) * 0.7 + 1 * 0.3 = 1 by norm_num]
    rw [show (1 : ℝ) * (1 - 0.5 * 0.5) = 3 / 4 by norm_num]
    rw [min_eq_right (by norm_num), max_eq_right (by norm_num)]
  have hscore : scoreWithContext e.scorer v14 (takeLast 10 e.recent_recommendations) =
      3 / 4 := by
    rw [hr]
    exact hbase
  have hfloor : pyInt ((0.5 : ℝ) * 100) = 50 := by
    unfold pyInt
    rw [if_pos (by norm_num)]
    rw [show (0.5 : ℝ) * 100 = ((50 : ℤ) : ℝ) by norm_num, Int.floor_intCast]
  have hcs : confidence_score 0.5 0.5 (pyInt ((0.5 : ℝ) * 100)) 0.5 0.3 0.2 = 0.5 := by
    rw [hfloor]
    unfold confidence_score
    rw [show (((50 : ℤ) : ℝ) / 100) = 1 / 2 by norm_num]
    rw [min_eq_left (by norm_num : (1 / 2 : ℝ) ≤ 1)]
    norm_num
  have hconf : min 0.95 (max 0.3
      (confidence_score 0.5 0.5 (pyInt ((0.5 : ℝ) * 100)) 0.5 0.3 0.2)) = (0.5 : ℝ) := by
    rw [hcs, max_eq_right (by norm_num : (0.3 : ℝ) ≤ 0.5),
      min_eq_right (by norm_num : (0.5 : ℝ) ≤ 0.95)]
  unfold recommend
  rw [if_pos ht]
  dsimp only
  constructor
  · rw [hscore]
    norm_num
  · rw [if_pos (by decide : 0 < v14.length), if_pos (by decide : 1 < v14.length),
      if_pos (by decide : 2 < v14.length)]
    rw [show v14.getD 0 0 = (0.5 : ℝ) from rfl, show v14.getD 1 0 = (0.5 : ℝ) from rfl,
      show v14.getD 2 0 = (0.5 : ℝ) from rfl]
    exact hconf

/-- C1 counterexample: in scenario B (train on 5 copies of `[0.5] * 14`, then
ask for a recommendation of `[0.5] * 14`) the returned score is exactly 75 on
the 0-100 scale — not near 100: the skip-rate dimension (index 2, value 0.5)
triggers the multiplicative penalty `1 - 0.5 * 0.5 = 0.75` on the otherwise
perfect score. -/
theorem c1_counterexample :
    (recommend (train pickTake freshSys (some c1Hist)).1.engine
        (some v14)).2.score = 75 ∧
    (recommend (train pickTake freshSys (some c1Hist)).1.engine
        (some v14)).2.score < 90 := by
  obtain ⟨hs, ht, hr⟩ := c1_train_engine pickTake
  obtain ⟨h75, _⟩ := c1_recommend_eval _ hs ht hr
  exact ⟨h75, by rw [h75]; norm_num⟩

/-- C1 amended: training on 5 identical `[0.5] * 14` vectors makes every
per-dimension std resolve to the zero-variance fallback 1.0, every z-score
similarity term of the query equals `1/(1+0) = 1`, and the subsequent
recommendation returns a score of exactly 75 on the 0-100 scale (the perfect
similarity blend scaled by the skip-rate penalty factor `1 - 0.5 * 0.5`) and a
confidence of exactly 0.5, which lies within [0.3, 0.95]. -/
theorem c1_scenario (pick : ℕ → List (List ℝ) → List (List ℝ)) :
    (train pick freshSys (some c1Hist)).1.engine.scorer.user_std =
      some (List.replicate 14 1) ∧
    zSimilarities v14 (List.replicate 14 (0.5 : ℝ)) (List.replicate 14 1) =
      List.replicate 14 1 ∧
    (recommend (train pick freshSys (some c1Hist)).1.engine
        (some v14)).2.score = 75 ∧
    (recommend (train pick freshSys (some c1Hist)).1.engine
        (some v14)).2.confidence = 0.5 ∧
    0.3 ≤ (recommend (train pick freshSys (some c1Hist)).1.engine
        (some v14)).2.confidence ∧
    (recommend (train pick freshSys (some c1Hist)).1.engine
        (some v14)).2.confidence ≤ 0.95 := by
  obtain ⟨hs, ht, hr⟩ := c1_train_engine pick
  obtain ⟨h75, hc⟩ := c1_recommend_eval _ hs ht hr
  refine ⟨by rw [hs], ?_, h75, hc, by rw [hc]; norm_num, by rw [hc]; norm_num⟩
  rw [show v14 = List.replicate 14 (0.5 : ℝ) from rfl]
  exact zSim_const 0.5 14

/-- C2 counterexample: on a ragged 5-entry batch (first row `[1, 2]`, the rest
empty) the per-dimension loop of `Scorer.fit` raises after `user_mean` and
`user_std` have already been reset, so `train` reports failure yet the
previously trained scorer state has been clobbered. -/
theorem c2_counterexample :
    (train pickTake sysTrained (some raggedHist)).2.success = false ∧
    (train pickTake sysTrained (some raggedHist)).1.engine.scorer.user_mean ≠
      sysTrained.engine.scorer.user_mean := by
  constructor
  · rfl
  · intro hco
    have h1 : (train pickTake sysTrained
        (some raggedHist)).1.engine.scorer.user_mean = some [] := rfl
    have h2 : sysTrained.engine.scorer.user_mean = some ([1, 1] : List ℝ) := rfl
    rw [h1, h2] at hco
    simp at hco

/-- C2 amended: a `train` call that reports failure never changes `is_trained`
or the clustering centroids; the scorer, however, is not always preserved
(see the counterexample: a mid-fit raise leaves partially overwritten
mean/std vectors behind). -/
theorem c2_failed_train_preserves (pick : ℕ → List (List ℝ) → List (List ℝ))
    (sys : MLSystem) (input : Option (List HEntry))
    (h : (train pick sys input).2.success = false) :
    (train pick sys input).1.engine.is_trained = sys.engine.is_trained ∧
    (train pick sys input).1.engine.clustering = sys.engine.clustering := by
  cases input with
  | none => exact ⟨rfl, rfl⟩
  | some l =>
    unfold train at h ⊢
    dsimp only at h ⊢
    by_cases h1 : l.isEmpty = true ∨ l.length < 5
    · rw [if_pos h1]
      exact ⟨rfl, rfl⟩
    · rw [if_neg h1] at h ⊢
      by_cases h2 : (l.all fun it => it.features.isSome) = false
      · rw [if_pos h2]
        exact ⟨rfl, rfl⟩
      · rw [if_neg h2] at h ⊢
        by_cases h3 : (scorerFit (l.map fun it => it.features.getD [])
            sys.engine.scorer).2 = false
        · rw [if_pos h3]
          exact ⟨rfl, rfl⟩
        · rw [if_neg h3] at h
          simp at h

/-- C2 witness: a concrete failing call (malformed history JSON) preserving
the trained flag and the centroids. -/
theorem c2_failed_train_preserves_check :
    (train pickTake sysTrained none).1.engine.is_trained =
      sysTrained.engine.is_trained ∧
    (train pickTake sysTrained none).1.engine.clustering =
      sysTrained.engine.clustering :=
  c2_failed_train_preserves pickTake sysTrained none rfl

/-- C4 counterexample: a trained engine given a malformed input (one on which
parsing raises) returns the error-recovery dictionary, and that dictionary has
no `diversity_score` field — the claim that all five fields are always present
fails on the trained error-recovery path. -/
theorem c4_counterexample :
    (Engine.mk ⟨some [1], some [1], some [1]⟩ ⟨5, [[1]]⟩ true []).is_trained = true ∧
    (recommend (Engine.mk ⟨some [1], some [1], some [1]⟩ ⟨5, [[1]]⟩ true [])
        none).2.diversity_score = none :=
  ⟨rfl, rfl⟩

/-- C4 amended: `recommend` always returns the `score`, `confidence`,
`cluster` and `message` fields; the `diversity_score` field is present in
exactly every case except the trained error-recovery path (trained engine,
input on which parsing raises). -/
theorem c4_fields (e : Engine) (input : Option (List ℝ)) :
    (recommend e input).2.diversity_score = none ↔
      e.is_trained = true ∧ input = none := by
  unfold recommend
  cases ht : e.is_trained with
  | false => simp [ht]
  | true =>
    cases input with
    | none => simp [ht]
    | some xs => simp [ht]

end SyncTaxML
